import Mathlib

/-!
A shallow embedding of the search core of the Synapse backend
(`backend/app/main.py` and `backend/app/utils/gemini_service.py`).

Modelling conventions:
* The item store (Postgres) is modelled as an in-memory table of rows; SQL
  `ORDER BY` is modelled with the stable `List.insertionSort` (CPython's
  `sorted` is stable; for ties Postgres gives an unspecified order, which we
  fix to table order).
* The embedding collaborator and the store's vector-distance operator `<=>`
  are external collaborators; they live in an `Env` record (`embed` may fail,
  `dist` is an abstract distance function).
* The three Gemini oracles are external: each adapter call is given the raw
  outcome of its single oracle request as an `OracleRaw` value — an exception
  (`raise`), a non-JSON reply (`malformed`), or a decoded JSON object (`ok`),
  the JSON object being an association list of `JVal` values, mirroring the
  loosely typed `dict` the Python code manipulates.
* Python truthiness (`if content_types:`, `if evaluation.get('satisfied')`)
  and the untyped `content_types` argument (which receives either a list, a
  string, or `None`; iterating a string yields its characters) are modelled
  explicitly by `JVal.truthy` and `PyArg`.
* Typed reads (`Dict.getS` …) return the Python value when it has the
  expected JSON type and the default otherwise; oracle replies carrying a
  wrong-typed field in exactly the slot the orchestrator reads are a
  dynamic-typing corner not exercised by any claim.
* `iterative_smart_search` additionally returns ghost `Counts` of the oracle
  requests made (one request per adapter invocation).
-/

namespace Synapse

/-! ### Case-insensitive substring match (SQL `ILIKE '%q%'`) -/

/-- Does `needle` occur at the head of `hay`? -/
def charsLead : List Char → List Char → Bool
  | [], _ => true
  | _ :: _, [] => false
  | a :: as, b :: bs => a == b && charsLead as bs

/-- Does `needle` occur anywhere in `hay`? -/
def charsSub (needle : List Char) : List Char → Bool
  | [] => charsLead needle []
  | b :: bs => charsLead needle (b :: bs) || charsSub needle bs

/-- `hay ILIKE '%needle%'` : case-insensitive substring containment
(characters folded to lower case). -/
def containsCI (hay needle : String) : Bool :=
  charsSub (needle.data.map Char.toLower) (hay.data.map Char.toLower)

/-- Python's `' '.join`. -/
def joinSpace : List String → String
  | [] => ""
  | [x] => x
  | x :: xs => x ++ " " ++ joinSpace xs

/-! ### Data model -/

/-- A row of the `items` table / the `Item` Pydantic projection. -/
structure Item where
  id : String
  user_id : String
  type : String
  title : Option String
  url : Option String
  raw_content : Option String
  tags : List String
  s3_key : Option String
  created_at : Nat
  deriving DecidableEq, Repr

/-- An embedding vector (component type ℚ; the store only compares distances). -/
abbrev Vec := List ℚ

/-- The store: `items` and `embeddings` tables. -/
structure DB where
  items : List Item
  embeddings : List (String × Vec)
  deriving DecidableEq, Repr

/-- The Python `content_types` argument: the endpoints pass a `List[str]`,
`iterative_smart_search` passes a `str`, and the final fallback passes the
caller's `Optional[str]` (`pynone` when absent). -/
inductive PyArg where
  | pylist (l : List String)
  | pystr (s : String)
  | pynone
  deriving DecidableEq, Repr

/-- `if content_types:` followed by iteration: a falsy argument means no type
filter; a truthy list yields its elements, a truthy string its characters. -/
def PyArg.toFilter : PyArg → Option (List String)
  | .pylist [] => Option.none
  | .pylist l => some l
  | .pystr "" => Option.none
  | .pystr s => some (s.data.map Char.toString)
  | .pynone => Option.none

/-- The `Optional[str]` `user_content_type` as a `content_types` argument. -/
def PyArg.ofOpt : Option String → PyArg
  | Option.none => PyArg.pynone
  | some s => PyArg.pystr s

/-- The SQL predicate `type = ANY(ARRAY[…])` (absent when the filter is falsy). -/
def typeOk (cts : PyArg) (it : Item) : Bool :=
  match PyArg.toFilter cts with
  | Option.none => true
  | some l => l.contains it.type

/-! ### Loosely-typed JSON values and dicts -/

/-- A decoded JSON value as handled by the Python adapters. -/
inductive JVal where
  | s (v : String)
  | l (v : List String)
  | q (v : ℚ)
  | b (v : Bool)
  | null
  deriving DecidableEq, Repr

/-- Python truthiness of a `JVal`. -/
def JVal.truthy : JVal → Bool
  | .s v => v != ""
  | .l v => !v.isEmpty
  | .q v => v != 0
  | .b v => v
  | .null => false

/-- A Python dict with string keys, as an association list. -/
abbrev Dict := List (String × JVal)

/-- `d.get(k, dflt)` — the raw value, whatever its type. -/
def Dict.getOr (d : Dict) (k : String) (dflt : JVal) : JVal :=
  (List.lookup k d).getD dflt

/-- `d.get(k, dflt)` read as a string (default on a missing key). -/
def Dict.getS (d : Dict) (k : String) (dflt : String) : String :=
  match List.lookup k d with
  | some (JVal.s v) => v
  | _ => dflt

/-- `d.get(k, dflt)` read as a list of strings (default on a missing key). -/
def Dict.getL (d : Dict) (k : String) (dflt : List String) : List String :=
  match List.lookup k d with
  | some (JVal.l v) => v
  | _ => dflt

/-- `d.get(k, dflt)` read as a number (default on a missing key). -/
def Dict.getQ (d : Dict) (k : String) (dflt : ℚ) : ℚ :=
  match List.lookup k d with
  | some (JVal.q v) => v
  | _ => dflt

/-- The raw outcome of one oracle request, before adapter validation. -/
inductive OracleRaw where
  | raise
  | malformed
  | ok (j : Dict)
  deriving DecidableEq, Repr

/-- External collaborators of the search core, per request. -/
structure Env where
  /-- `embedding_service.generate_text_embedding` (may raise). -/
  embed : String → Except Unit Vec
  /-- The store's vector distance operator `<=>`. -/
  dist : Vec → Vec → ℚ
  /-- `get_gemini_service()` raises (no API key). -/
  serviceFail : Bool
  /-- A vector query against the store raises. -/
  storeFail : Bool
  /-- Raw outcome of the query-plan oracle request for a given query. -/
  planOracle : String → OracleRaw
  /-- Raw outcome of the judge oracle request for attempt 1 or 2. -/
  judgeOracle : Nat → OracleRaw
  /-- Raw outcome of the refinement oracle request. -/
  refineOracle : OracleRaw

/-! ### SQL ordering relations -/

/-- `ORDER BY created_at DESC`. -/
def byRecency (a b : Item) : Prop := b.created_at ≤ a.created_at

instance : DecidableRel byRecency := fun a b =>
  inferInstanceAs (Decidable (b.created_at ≤ a.created_at))

/-- `ORDER BY e.embedding <=> qv ASC` (distance to the query vector). -/
def byDist (d : Vec → ℚ) (a b : Item × Vec) : Prop := d a.2 ≤ d b.2

instance (d : Vec → ℚ) : DecidableRel (byDist d) := fun a b =>
  inferInstanceAs (Decidable (d a.2 ≤ d b.2))

/-- `ORDER BY similarity_score DESC` where `similarity_score = 1 - distance`. -/
def bySim (d : Vec → ℚ) (a b : Item × Vec) : Prop := 1 - d b.2 ≤ 1 - d a.2

instance (d : Vec → ℚ) : DecidableRel (bySim d) := fun a b =>
  inferInstanceAs (Decidable (1 - d b.2 ≤ 1 - d a.2))

/-! ### Retrievers (`text_search_only`, `semantic_search_only`,
`semantic_search_items`) -/

/-- The lexical `WHERE` clause:
`title ILIKE %q% OR raw_content ILIKE %q% OR EXISTS (… tag ILIKE %q%)`.
A SQL `NULL` field never matches. -/
def textMatch (q : String) (it : Item) : Bool :=
  (match it.title with
   | some t => containsCI t q
   | Option.none => false) ||
  (match it.raw_content with
   | some c => containsCI c q
   | Option.none => false) ||
  it.tags.any (fun t => containsCI t q)

/-- `text_search_only(q, skip, limit, content_types)` over the store. -/
def text_search_only (q : String) (skip limit : Nat) (cts : PyArg) (db : DB) :
    List Item :=
  let rows := db.items.filter (fun it => textMatch q it && typeOk cts it)
  ((List.insertionSort byRecency rows).drop skip).take limit

/-- `JOIN embeddings e ON i.id = e.item_id`: items that have a stored vector. -/
def dbWithVec (db : DB) : List (Item × Vec) :=
  db.items.filterMap (fun it => (List.lookup it.id db.embeddings).map (fun v => (it, v)))

/-- `semantic_search_only(q, skip, limit, content_types)`.
The function runs `cur.execute` twice; the first call prepends the embedding
to a parameter list that already starts with the embedding, so whenever the
type filter is truthy the embedding is bound to a content-type placeholder
and the store raises a type error.  With a falsy filter the parameters line
up and the second (correctly parameterised) query produces the rows:
distance below the hardcoded 0.5, ascending distance, then `LIMIT/OFFSET`. -/
def semantic_search_only (env : Env) (db : DB) (q : String) (skip limit : Nat)
    (cts : PyArg) : Except Unit (List Item) :=
  match env.embed q with
  | Except.error e => Except.error e
  | Except.ok qv =>
    if env.storeFail then Except.error ()
    else if (PyArg.toFilter cts).isSome then Except.error ()
    else
      let rows := (dbWithVec db).filter (fun r => decide (env.dist qv r.2 < (1 : ℚ)/2))
      let sorted := List.insertionSort (byDist (env.dist qv)) rows
      Except.ok (((sorted.map Prod.fst).drop skip).take limit)

/-- `1 - threshold`: the `/api/semantic-search` endpoint converts its
similarity `threshold` into the cosine-distance cutoff used in `WHERE`. -/
def semCutoff (threshold : ℚ) : ℚ := 1 - threshold

/-- `semantic_search_items(q, skip, limit, threshold, content_types)`:
distance below `1 - threshold`, optional type filter, similarity descending,
paginated; each row is returned together with its `similarity_score`.
Any exception (embedding or store) is re-raised as an HTTP 500. -/
def semantic_search_items (env : Env) (db : DB) (q : String) (skip limit : Nat)
    (threshold : ℚ) (cts : PyArg) : Except Unit (List (Item × ℚ)) :=
  match env.embed q with
  | Except.error e => Except.error e
  | Except.ok qv =>
    if env.storeFail then Except.error ()
    else
      let rows := (dbWithVec db).filter
        (fun r => decide (env.dist qv r.2 < semCutoff threshold) && typeOk cts r.1)
      let sorted := List.insertionSort (bySim (env.dist qv)) rows
      Except.ok (((sorted.map (fun r => (r.1, 1 - env.dist qv r.2))).drop skip).take limit)

/-! ### Reciprocal rank fusion (`search_items`, lines 299–331) -/

/-- The RRF contribution `1 / (k + rank + 1)` of a 0-based rank. -/
def rrfTerm (k rank : Nat) : ℚ := 1 / ((k : ℚ) + (rank : ℚ) + 1)

/-- `scores[id] += v`, creating the entry (at the end, in dict insertion
order) when the id is new. -/
def bump (scores : List (String × ℚ)) (id : String) (v : ℚ) : List (String × ℚ) :=
  if scores.any (fun p => p.1 == id) then
    scores.map (fun p => if p.1 == id then (p.1, p.2 + v) else p)
  else scores ++ [(id, v)]

/-- `for rank, item in enumerate(results): scores[item.id] += 1/(k+rank+1)`. -/
def procFrom (k : Nat) : List (String × ℚ) → List String → Nat → List (String × ℚ)
  | scores, [], _ => scores
  | scores, id :: rest, rank => procFrom k (bump scores id (rrfTerm k rank)) rest (rank + 1)

/-- The RRF score dict for the text result list followed by the semantic
result list, keys in first-encounter order. -/
def rrfScores (k : Nat) (l1 l2 : List String) : List (String × ℚ) :=
  procFrom k (procFrom k [] l1 0) l2 0

/-- `sorted(..., key=lambda x: scores[x], reverse=True)`: combined score
descending; CPython's sort is stable, so ties keep dict insertion order. -/
def byScore (a b : String × ℚ) : Prop := b.2 ≤ a.2

instance : DecidableRel byScore := fun a b =>
  inferInstanceAs (Decidable (b.2 ≤ a.2))

instance : IsTotal (String × ℚ) byScore := ⟨fun a b => le_total b.2 a.2⟩

instance : IsTrans (String × ℚ) byScore :=
  ⟨fun _ _ _ h1 h2 => le_trans h2 h1⟩

/-- The fused id order `sorted_ids`. -/
def rrfOrder (k : Nat) (l1 l2 : List String) : List String :=
  (List.insertionSort byScore (rrfScores k l1 l2)).map Prod.fst

/-- The fused score of one id (0 when absent from both lists). -/
def rrfScore (k : Nat) (l1 l2 : List String) (id : String) : ℚ :=
  ((rrfScores k l1 l2).lookup id).getD 0

/-- Fusion followed by pagination (`sorted_ids[skip : skip+limit]`) and the
`item_map` lookup (an id's item is the one first inserted, text list first). -/
def fusePage (k : Nat) (tr sr : List Item) (skip limit : Nat) : List Item :=
  let ids := rrfOrder k (tr.map Item.id) (sr.map Item.id)
  ((ids.drop skip).take limit).filterMap (fun i => (tr ++ sr).find? (fun it => it.id == i))

/-- The body of the `try:` block of `search_items` when `semantic` is true:
over-fetch `limit * 2` candidates from both retrievers (any exception in the
semantic retrieval propagates), then fuse with `k = 60` and paginate. -/
def hybrid_core (env : Env) (db : DB) (q : String) (skip limit : Nat) (cts : PyArg) :
    Except Unit (List Item) :=
  let tr := text_search_only q 0 (limit * 2) cts db
  match semantic_search_only env db q 0 (limit * 2) cts with
  | Except.error e => Except.error e
  | Except.ok sr => Except.ok (fusePage 60 tr sr skip limit)

/-- `search_items(q, skip, limit, semantic, content_types)` — the `/api/search`
endpoint: text-only when `semantic` is false, otherwise the hybrid RRF search,
falling back to the text-only search on any exception. -/
def search_items (env : Env) (db : DB) (q : String) (skip limit : Nat)
    (semantic : Bool) (cts : PyArg) : List Item :=
  if semantic = false then text_search_only q skip limit cts db
  else
    match hybrid_core env db q skip limit cts with
    | Except.ok r => r
    | Except.error _ => text_search_only q skip limit cts db

/-! ### Oracle adapters (`gemini_service.py`) -/

/-- `analyze_search_query(query)`: on an oracle exception or a JSON decode
failure return the fixed default analysis; otherwise pass each field through
with `dict.get` defaults (`searchMode → 'hybrid'`, `contentTypes → ['any']`,
`enhancedTerms → [query]`). -/
def analyze_search_query (query : String) (raw : OracleRaw) : Dict :=
  match raw with
  | OracleRaw.raise =>
      [("searchMode", JVal.s "hybrid"), ("contentTypes", JVal.l ["any"]),
       ("enhancedTerms", JVal.l [query]), ("reasoning", JVal.s "Gemini analysis failed")]
  | OracleRaw.malformed =>
      [("searchMode", JVal.s "hybrid"), ("contentTypes", JVal.l ["any"]),
       ("enhancedTerms", JVal.l [query]), ("reasoning", JVal.s "Failed to parse Gemini response")]
  | OracleRaw.ok j =>
      [("searchMode", Dict.getOr j "searchMode" (JVal.s "hybrid")),
       ("contentTypes", Dict.getOr j "contentTypes" (JVal.l ["any"])),
       ("enhancedTerms", Dict.getOr j "enhancedTerms" (JVal.l [query])),
       ("reasoning", Dict.getOr j "reasoning" (JVal.s "Default analysis"))]

/-- `evaluate_search_results(...)`: on exception or decode failure an
unsatisfied `poor` evaluation with `['evaluation_error']`; otherwise
field-wise `dict.get` defaults (`satisfied → False`). -/
def evaluate_search_results (raw : OracleRaw) : Dict :=
  match raw with
  | OracleRaw.raise =>
      [("satisfied", JVal.b false), ("reasoning", JVal.s "Gemini evaluation failed"),
       ("result_quality", JVal.s "poor"), ("main_issues", JVal.l ["evaluation_error"]),
       ("suggested_improvements", JVal.null)]
  | OracleRaw.malformed =>
      [("satisfied", JVal.b false), ("reasoning", JVal.s "Failed to parse Gemini evaluation"),
       ("result_quality", JVal.s "poor"), ("main_issues", JVal.l ["evaluation_error"]),
       ("suggested_improvements", JVal.null)]
  | OracleRaw.ok j =>
      [("satisfied", Dict.getOr j "satisfied" (JVal.b false)),
       ("reasoning", Dict.getOr j "reasoning" (JVal.s "No reasoning provided")),
       ("result_quality", Dict.getOr j "result_quality" (JVal.s "poor")),
       ("main_issues", Dict.getOr j "main_issues" (JVal.l [])),
       ("suggested_improvements", Dict.getOr j "suggested_improvements" JVal.null)]

/-- `refine_search_strategy(original_query, ...)`: on exception or decode
failure the fixed fallback `semantic / any / [query] / 0.1`; otherwise
field-wise `dict.get` defaults. -/
def refine_search_strategy (original_query : String) (raw : OracleRaw) : Dict :=
  match raw with
  | OracleRaw.raise =>
      [("searchMode", JVal.s "semantic"), ("contentType", JVal.s "any"),
       ("enhancedTerms", JVal.l [original_query]), ("threshold", JVal.q (1/10)),
       ("reasoning", JVal.s "Error fallback")]
  | OracleRaw.malformed =>
      [("searchMode", JVal.s "semantic"), ("contentType", JVal.s "any"),
       ("enhancedTerms", JVal.l [original_query]), ("threshold", JVal.q (1/10)),
       ("reasoning", JVal.s "Fallback refinement")]
  | OracleRaw.ok j =>
      [("searchMode", Dict.getOr j "searchMode" (JVal.s "hybrid")),
       ("contentType", Dict.getOr j "contentType" (JVal.s "any")),
       ("enhancedTerms", Dict.getOr j "enhancedTerms" (JVal.l [original_query])),
       ("threshold", Dict.getOr j "threshold" (JVal.q (1/5))),
       ("reasoning", Dict.getOr j "reasoning" (JVal.s "Default refinement"))]

/-! ### The orchestrator (`iterative_smart_search`) -/

/-- `user_content_type if user_content_type and user_content_type != 'any'
else g` (Python truthiness: `None` and `''` are falsy). -/
def ctChoose (uct : Option String) (g : String) : String :=
  match uct with
  | some s => if s != "" && s != "any" then s else g
  | Option.none => g

/-- The parameters of one search attempt as assembled by the orchestrator. -/
structure AttemptArgs where
  mode : String
  terms : String
  ct : String
  threshold : ℚ
  deriving DecidableEq, Repr

/-- Lines 505–509: parameters of the first attempt.  The orchestrator reads
key `contentType`, which `analyze_search_query` never emits (it emits
`contentTypes`), so the read always defaults to `'any'` unless the caller
supplied a content type; the threshold of a first semantic attempt is the
literal `0.2`. -/
def firstArgs (q : String) (uct : Option String) (ia : Dict) : AttemptArgs :=
  { mode := Dict.getS ia "searchMode" "hybrid",
    terms := joinSpace (Dict.getL ia "enhancedTerms" [q]),
    ct := ctChoose uct (Dict.getS ia "contentType" "any"),
    threshold := 1/5 }

/-- Lines 545–548: parameters of the refined second attempt. -/
def refinedArgs (q : String) (uct : Option String) (rf : Dict) : AttemptArgs :=
  { mode := Dict.getS rf "searchMode" "hybrid",
    terms := joinSpace (Dict.getL rf "enhancedTerms" [q]),
    ct := ctChoose uct (Dict.getS rf "contentType" "any"),
    threshold := Dict.getQ rf "threshold" (1/5) }

/-- Attempt dispatch: `semantic` mode calls the `/api/semantic-search`
endpoint (whose similarity scores the orchestrator carries along; projected
away here), `text` calls `search_items` with `semantic=False`, anything else
is the hybrid default.  The content type is passed as a Python `str`. -/
def dispatch (env : Env) (db : DB) (a : AttemptArgs) (skip limit : Nat) :
    Except Unit (List Item) :=
  if a.mode == "semantic" then
    (semantic_search_items env db a.terms skip limit a.threshold (PyArg.pystr a.ct)).map
      (fun l => l.map Prod.fst)
  else if a.mode == "text" then
    Except.ok (search_items env db a.terms skip limit false (PyArg.pystr a.ct))
  else
    Except.ok (search_items env db a.terms skip limit true (PyArg.pystr a.ct))

/-- Ghost instrumentation: how many oracle requests of each kind the request
made (each adapter invocation performs exactly one request). -/
structure Counts where
  plan : Nat
  judge : Nat
  refine : Nat
  deriving DecidableEq, Repr

/-- `iterative_smart_search(q, skip, limit, user_content_type)` — the
`/api/smart-search` endpoint, paired with its ghost oracle-call counts.
Any exception inside the `try:` block (obtaining the Gemini service, or a
semantic attempt raising) lands in the `except:` fallback
`search_items(q, skip, limit, True, user_content_type)`. -/
def iterative_smart_search (env : Env) (db : DB) (q : String) (skip limit : Nat)
    (uct : Option String) : List Item × Counts :=
  if env.serviceFail then
    (search_items env db q skip limit true (PyArg.ofOpt uct), ⟨0, 0, 0⟩)
  else
    let ia := analyze_search_query q (env.planOracle q)
    match dispatch env db (firstArgs q uct ia) skip limit with
    | Except.error _ => (search_items env db q skip limit true (PyArg.ofOpt uct), ⟨1, 0, 0⟩)
    | Except.ok first_results =>
      let ev1 := evaluate_search_results (env.judgeOracle 1)
      if (Dict.getOr ev1 "satisfied" (JVal.b false)).truthy then
        (first_results, ⟨1, 1, 0⟩)
      else
        let rf := refine_search_strategy q env.refineOracle
        match dispatch env db (refinedArgs q uct rf) skip limit with
        | Except.error _ => (search_items env db q skip limit true (PyArg.ofOpt uct), ⟨1, 1, 1⟩)
        | Except.ok second_results =>
          let ev2 := evaluate_search_results (env.judgeOracle 2)
          if (Dict.getOr ev2 "satisfied" (JVal.b false)).truthy then
            (second_results, ⟨1, 2, 1⟩)
          else
            (search_items env db q skip limit true (PyArg.ofOpt uct), ⟨1, 2, 1⟩)

/-! ### Spec-side comparison definitions and concrete fixtures -/

/-- 0-based rank of an id in one list (`none` when absent). -/
def rankIn (l : List String) (id : String) : Option Nat :=
  l.findIdx? (fun x => x == id)

/-- Best (lowest) rank an id attains in either list (absent ranks count as
past the end). -/
def bestRank (l1 l2 : List String) (id : String) : Nat :=
  min ((rankIn l1 id).getD (l1.length + l2.length))
      ((rankIn l2 id).getD (l1.length + l2.length))

/-- Lexicographic (code-point) comparison of ids. -/
def charsLt : List Char → List Char → Bool
  | [], [] => false
  | [], _ :: _ => true
  | _ :: _, [] => false
  | a :: as, b :: bs => a < b || (a == b && charsLt as bs)

/-- Modelled from the claim wording for C5 (not from the source): order by
score descending, ties by best (lowest) rank attained in any input list,
remaining ties by item id. -/
def specTie (l1 l2 : List String) (a b : String × ℚ) : Prop :=
  b.2 < a.2 ∨ (a.2 = b.2 ∧ (bestRank l1 l2 a.1 < bestRank l1 l2 b.1 ∨
    (bestRank l1 l2 a.1 = bestRank l1 l2 b.1 ∧ charsLt b.1.data a.1.data = false)))

instance (l1 l2 : List String) : DecidableRel (specTie l1 l2) := fun a b =>
  inferInstanceAs (Decidable (b.2 < a.2 ∨ (a.2 = b.2 ∧
    (bestRank l1 l2 a.1 < bestRank l1 l2 b.1 ∨
      (bestRank l1 l2 a.1 = bestRank l1 l2 b.1 ∧ charsLt b.1.data a.1.data = false)))))

/-- The fused order the C5 claim describes, over the source's score dict. -/
def specTieOrder (k : Nat) (l1 l2 : List String) : List String :=
  (List.insertionSort (specTie l1 l2) (rrfScores k l1 l2)).map Prod.fst

/-- A stored note titled "dog". -/
def itemX : Item :=
  { id := "i1", user_id := "u1", type := "note", title := some "dog",
    url := Option.none, raw_content := Option.none, tags := [], s3_key := Option.none,
    created_at := 1 }

/-- A store holding just `itemX`, with no stored vectors. -/
def db2 : DB := { items := [itemX], embeddings := [] }

/-- Collaborators for the C2 scenario: the embedding service raises, all
judge verdicts are unsatisfied, the refinement oracle answers a text plan. -/
def env2 : Env :=
  { embed := fun _ => Except.error (), dist := fun _ _ => 0,
    serviceFail := false, storeFail := false,
    planOracle := fun _ => OracleRaw.raise,
    judgeOracle := fun _ => OracleRaw.ok [("satisfied", JVal.b false)],
    refineOracle := OracleRaw.ok [("searchMode", JVal.s "text")] }

/-- Collaborators for the C8 scenario: everything healthy, the plan oracle
raises, the judge is satisfied. -/
def env3 : Env :=
  { embed := fun _ => Except.ok [1], dist := fun _ _ => 0,
    serviceFail := false, storeFail := false,
    planOracle := fun _ => OracleRaw.raise,
    judgeOracle := fun _ => OracleRaw.ok [("satisfied", JVal.b true)],
    refineOracle := OracleRaw.raise }

/-- Collaborators for the C3 witness: every oracle request raises. -/
def env4 : Env :=
  { embed := fun _ => Except.ok [1], dist := fun _ _ => 0,
    serviceFail := false, storeFail := false,
    planOracle := fun _ => OracleRaw.raise,
    judgeOracle := fun _ => OracleRaw.raise,
    refineOracle := OracleRaw.raise }

/-- Collaborators for the C3 counterexample: the plan oracle always raises,
the first judge is unsatisfied, the refinement oracle answers a text plan
for other terms, and the second judge is satisfied. -/
def env5 : Env :=
  { embed := fun _ => Except.ok [1], dist := fun _ _ => 0,
    serviceFail := false, storeFail := false,
    planOracle := fun _ => OracleRaw.raise,
    judgeOracle := fun n => OracleRaw.ok [("satisfied", JVal.b (n == 2))],
    refineOracle := OracleRaw.ok
      [("searchMode", JVal.s "text"), ("enhancedTerms", JVal.l ["cats"])] }

/-! ### Shared helper lemmas -/

/-- A `LIMIT`/slice page never exceeds `limit` elements. -/
theorem len_page {α : Type} (l : List α) (skip limit : Nat) :
    ((l.drop skip).take limit).length ≤ limit :=
  List.length_take_le _ _

/-- `text_search_only` returns at most `limit` rows. -/
theorem len_text (q : String) (skip limit : Nat) (cts : PyArg) (db : DB) :
    (text_search_only q skip limit cts db).length ≤ limit := len_page _ _ _

/-- The fused page holds at most `limit` items. -/
theorem len_fuse (k : Nat) (tr sr : List Item) (skip limit : Nat) :
    (fusePage k tr sr skip limit).length ≤ limit := by
  unfold fusePage
  exact le_trans (List.length_filterMap_le _ _) (len_page _ _ _)

/-- `search_items` returns at most `limit` items on every path. -/
theorem len_search (env : Env) (db : DB) (q : String) (skip limit : Nat)
    (sem : Bool) (cts : PyArg) :
    (search_items env db q skip limit sem cts).length ≤ limit := by
  unfold search_items
  cases sem
  · simp [len_text]
  · simp only [Bool.true_eq_false, if_false]
    cases hc : hybrid_core env db q skip limit cts with
    | error e => exact len_text _ _ _ _ _
    | ok r =>
      unfold hybrid_core at hc
      cases hs : semantic_search_only env db q 0 (limit * 2) cts <;> rw [hs] at hc
      · cases hc
      · cases hc
        exact len_fuse _ _ _ _ _

/-- A successful `semantic_search_items` returns at most `limit` rows. -/
theorem len_semantic (env : Env) (db : DB) (q : String) (skip limit : Nat)
    (th : ℚ) (cts : PyArg) (r : List (Item × ℚ))
    (h : semantic_search_items env db q skip limit th cts = Except.ok r) :
    r.length ≤ limit := by
  unfold semantic_search_items at h
  cases hq : env.embed q <;> rw [hq] at h
  · cases h
  · cases hsf : env.storeFail <;>
      simp only [hsf, Bool.true_eq_false, if_false, if_true] at h
    · cases h
      exact len_page _ _ _
    · cases h

/-- A successful attempt dispatch returns at most `limit` items. -/
theorem len_dispatch (env : Env) (db : DB) (a : AttemptArgs) (skip limit : Nat)
    (r : List Item) (h : dispatch env db a skip limit = Except.ok r) :
    r.length ≤ limit := by
  unfold dispatch at h
  by_cases h1 : (a.mode == "semantic") = true
  · rw [if_pos h1] at h
    cases hs : semantic_search_items env db a.terms skip limit a.threshold (PyArg.pystr a.ct) <;>
      rw [hs, Except.map] at h
    · cases h
    · cases h
      simpa using len_semantic _ _ _ _ _ _ _ _ hs
  · rw [if_neg h1] at h
    by_cases h2 : (a.mode == "text") = true <;>
      simp only [h2, if_true, Bool.false_eq_true, if_false] at h
    · cases h; exact len_search _ _ _ _ _ _ _
    · cases h; exact len_search _ _ _ _ _ _ _

/-- The empty search pattern is contained in every string. -/
theorem charsSub_nil (l : List Char) : charsSub [] l = true := by
  cases l <;> simp [charsSub, charsLead]

/-! ### Claim theorems -/

/-- C1: for every environment (hence every pattern of oracle successes,
failures, or malformed outputs), every store, query, pagination, and caller
content type, one `iterative_smart_search` request makes at most 1 plan
oracle call, at most 1 refinement oracle call and at most 2 judge oracle
calls, hence at most 4 oracle calls in total. -/
theorem smart_search_oracle_call_bound (env : Env) (db : DB) (q : String)
    (skip limit : Nat) (uct : Option String) :
    (iterative_smart_search env db q skip limit uct).2.plan ≤ 1 ∧
    (iterative_smart_search env db q skip limit uct).2.refine ≤ 1 ∧
    (iterative_smart_search env db q skip limit uct).2.judge ≤ 2 ∧
    (iterative_smart_search env db q skip limit uct).2.plan +
      (iterative_smart_search env db q skip limit uct).2.refine +
      (iterative_smart_search env db q skip limit uct).2.judge ≤ 4 := by
  unfold iterative_smart_search
  cases hs : env.serviceFail
  · simp only [Bool.false_eq_true, if_false]
    cases hd1 : dispatch env db (firstArgs q uct (analyze_search_query q (env.planOracle q))) skip limit
    · simp
    · simp only []
      cases ht1 : ((evaluate_search_results (env.judgeOracle 1)).getOr "satisfied" (JVal.b false)).truthy
      · simp only [Bool.false_eq_true, if_false]
        cases hd2 : dispatch env db (refinedArgs q uct (refine_search_strategy q env.refineOracle)) skip limit
        · simp
        · simp only []
          cases ht2 : ((evaluate_search_results (env.judgeOracle 2)).getOr "satisfied" (JVal.b false)).truthy
          · simp
          · simp
      · simp
  · simp

/-- C2 (counterexample): with the caller's content type set to "x", a store
holding one matching "note" item and both judges unsatisfied, the smart
search (which passes "x" on to the final fallback) returns the empty list
after the second judgment, while the plain hybrid search on the original
query with no content-type filter returns the item — so the claimed
"no content filter" fallback identity fails. -/
theorem smart_judge2_fallback_cex :
    (iterative_smart_search env2 db2 "dog" 0 10 (some "x")).1 = [] ∧
    (iterative_smart_search env2 db2 "dog" 0 10 (some "x")).2 = ⟨1, 2, 1⟩ ∧
    search_items env2 db2 "dog" 0 10 true PyArg.pynone = [itemX] := by
  decide

/-- C2 (amended): whenever the request reaches the second judge evaluation
(judge count 2) and that evaluation is not satisfied, the returned result is
that of the plain hybrid `search_items` on the original, unmodified query
and pagination with the caller's `user_content_type` argument passed through
(no content-type filter exactly when the caller supplied none), and no
further oracle calls are made after that second judgment: the counts stay
at 1 plan, 2 judge, 1 refine. -/
theorem smart_judge2_fallback (env : Env) (db : DB) (q : String)
    (skip limit : Nat) (uct : Option String)
    (hreach : (iterative_smart_search env db q skip limit uct).2.judge = 2)
    (hj2 : ((evaluate_search_results (env.judgeOracle 2)).getOr "satisfied"
      (JVal.b false)).truthy = false) :
    (iterative_smart_search env db q skip limit uct).1 =
      search_items env db q skip limit true (PyArg.ofOpt uct) ∧
    (iterative_smart_search env db q skip limit uct).2 = ⟨1, 2, 1⟩ := by
  unfold iterative_smart_search at hreach ⊢
  cases hs : env.serviceFail
  · simp only [hs, Bool.false_eq_true, if_false] at hreach ⊢
    cases hd1 : dispatch env db (firstArgs q uct (analyze_search_query q (env.planOracle q))) skip limit
    · simp [hd1] at hreach
    · simp only [hd1] at hreach ⊢
      cases ht1 : ((evaluate_search_results (env.judgeOracle 1)).getOr "satisfied" (JVal.b false)).truthy
      · simp only [ht1, Bool.false_eq_true, if_false] at hreach ⊢
        cases hd2 : dispatch env db (refinedArgs q uct (refine_search_strategy q env.refineOracle)) skip limit
        · simp [hd2] at hreach
        · simp only [hd2, hj2, Bool.false_eq_true, if_false] at hreach ⊢
          exact ⟨trivial, trivial⟩
      · simp [ht1] at hreach
  · simp [hs] at hreach

/-- C2 (witness): the amended fallback identity at the concrete C2 scenario. -/
theorem smart_judge2_fallback_inst :
    (iterative_smart_search env2 db2 "dog" 0 10 (some "x")).1 =
      search_items env2 db2 "dog" 0 10 true (PyArg.ofOpt (some "x")) ∧
    (iterative_smart_search env2 db2 "dog" 0 10 (some "x")).2 = ⟨1, 2, 1⟩ :=
  smart_judge2_fallback env2 db2 "dog" 0 10 (some "x") (by decide) (by decide)

/-- C3 (counterexample): the plan oracle raises on every call, yet the smart
search result is not the plain hybrid result: the adapter absorbs the raise
and the flow continues, here ending with a satisfied second judge returning
the refined attempt's empty result, while the plain hybrid search on the
original query returns the stored item. -/
theorem plan_oracle_raise_identity_cex :
    env5.planOracle "dog" = OracleRaw.raise ∧
    (iterative_smart_search env5 db2 "dog" 0 10 Option.none).1 = [] ∧
    search_items env5 db2 "dog" 0 10 true PyArg.pynone = [itemX] := by
  decide

/-- C3 (amended): if every oracle call raises (plan, both judges and the
refinement — in the source all four are served by the same Gemini service)
and no caller content type is given, the smart search result is identical to
invoking the plain hybrid search on the original query with the same
pagination and no content-type filter. -/
theorem all_oracles_raise_identity (env : Env) (db : DB) (q : String)
    (skip limit : Nat)
    (hp : env.planOracle q = OracleRaw.raise)
    (hj1 : env.judgeOracle 1 = OracleRaw.raise)
    (hj2 : env.judgeOracle 2 = OracleRaw.raise)
    (hr : env.refineOracle = OracleRaw.raise) :
    (iterative_smart_search env db q skip limit Option.none).1 =
      search_items env db q skip limit true PyArg.pynone := by
  unfold iterative_smart_search
  cases hs : env.serviceFail
  · simp only [hs, Bool.false_eq_true, if_false, hp, hj1, hj2, hr]
    cases hd1 : dispatch env db (firstArgs q Option.none (analyze_search_query q OracleRaw.raise)) skip limit
    · simp [PyArg.ofOpt]
    · simp only []
      have ht1 : ((evaluate_search_results OracleRaw.raise).getOr "satisfied"
          (JVal.b false)).truthy = false := rfl
      simp only [ht1, Bool.false_eq_true, if_false]
      cases hd2 : dispatch env db (refinedArgs q Option.none (refine_search_strategy q OracleRaw.raise)) skip limit
      · simp [PyArg.ofOpt]
      · have ht2 : ((evaluate_search_results OracleRaw.raise).getOr "satisfied"
            (JVal.b false)).truthy = false := rfl
        simp only [ht2, Bool.false_eq_true, if_false, PyArg.ofOpt]
  · simp [PyArg.ofOpt]

/-- C3 (witness): the amended identity at the concrete all-raising scenario. -/
theorem all_oracles_raise_identity_inst :
    (iterative_smart_search env4 db2 "dog" 0 10 Option.none).1 =
      search_items env4 db2 "dog" 0 10 true PyArg.pynone :=
  all_oracles_raise_identity env4 db2 "dog" 0 10 rfl rfl rfl rfl

unseal Rat.add Rat.mul Rat.inv Rat.sub Rat.ofScientific in
/-- C4 (counterexample): for `L1=[A,B,C]`, `L2=[C,A,D]`, `k=60` the fusion
stage gives B (rank 1 in one list) the score `1/(60+1+1) = 1/62`, not the
claimed `1/63`, and D (rank 2 in one list) `1/63`, not the claimed `1/64`. -/
theorem rrf_example_claimed_scores_cex :
    rrfScore 60 ["A", "B", "C"] ["C", "A", "D"] "B" ≠ 1/63 ∧
    rrfScore 60 ["A", "B", "C"] ["C", "A", "D"] "D" ≠ 1/64 := by
  decide

unseal Rat.add Rat.mul Rat.inv Rat.sub Rat.ofScientific in
/-- C4 (amended): for `L1=[A,B,C]`, `L2=[C,A,D]`, `k=60` the fusion stage
assigns `score(A)=1/61+1/62`, `score(C)=1/63+1/61`, `score(B)=1/62`,
`score(D)=1/63` (the sum of `1/(k+position+1)` over the lists containing the
item, positions 0-based), and the fused order is `A,C,B,D`. -/
theorem rrf_example_scores :
    rrfScore 60 ["A", "B", "C"] ["C", "A", "D"] "A" = 1/61 + 1/62 ∧
    rrfScore 60 ["A", "B", "C"] ["C", "A", "D"] "C" = 1/63 + 1/61 ∧
    rrfScore 60 ["A", "B", "C"] ["C", "A", "D"] "B" = 1/62 ∧
    rrfScore 60 ["A", "B", "C"] ["C", "A", "D"] "D" = 1/63 ∧
    rrfOrder 60 ["A", "B", "C"] ["C", "A", "D"] = ["A", "C", "B", "D"] := by
  decide

unseal Rat.add Rat.mul Rat.inv Rat.sub Rat.ofScientific in
/-- C5 (counterexample): for `L1=[B]`, `L2=[A]` both items score `1/61`;
the code orders them `B, A` (first-encounter order of the score dict), but
the claimed tie-break (equal best rank 0, then item id) orders them `A, B`. -/
theorem rrf_tiebreak_cex :
    rrfOrder 60 ["B"] ["A"] = ["B", "A"] ∧
    specTieOrder 60 ["B"] ["A"] = ["A", "B"] ∧
    rrfOrder 60 ["B"] ["A"] ≠ specTieOrder 60 ["B"] ["A"] := by
  decide

/-- C5 (amended): for every pair of input lists the fused output is ordered
by combined score weakly descending, is a permutation of the deduplicated
ids (the score dict's keys), and any two entries with equal scores keep
their first-encounter order — text list first, then semantic list — rather
than a best-rank/id order; the order is a function of the inputs, hence
deterministic. -/
theorem rrf_order_sorted_stable (k : Nat) (l1 l2 : List String) :
    (List.insertionSort byScore (rrfScores k l1 l2)).Pairwise (fun a b => b.2 ≤ a.2) ∧
    (rrfOrder k l1 l2).Perm ((rrfScores k l1 l2).map Prod.fst) ∧
    ∀ a b : String × ℚ, a.2 = b.2 → [a, b].Sublist (rrfScores k l1 l2) →
      [a.1, b.1].Sublist (rrfOrder k l1 l2) := by
  refine ⟨?_, ?_, ?_⟩
  · exact List.sorted_insertionSort byScore (rrfScores k l1 l2)
  · exact (List.perm_insertionSort byScore (rrfScores k l1 l2)).map Prod.fst
  · intro a b hab hsub
    have h1 : [a, b].Sublist (List.insertionSort byScore (rrfScores k l1 l2)) :=
      List.pair_sublist_insertionSort (le_of_eq hab.symm) hsub
    exact h1.map Prod.fst

/-- C5 (witness): the amended ordering properties at the concrete tie input. -/
theorem rrf_order_sorted_stable_inst :
    (List.insertionSort byScore (rrfScores 60 ["B"] ["A"])).Pairwise (fun a b => b.2 ≤ a.2) ∧
    (rrfOrder 60 ["B"] ["A"]).Perm ((rrfScores 60 ["B"] ["A"]).map Prod.fst) ∧
    ∀ a b : String × ℚ, a.2 = b.2 → [a, b].Sublist (rrfScores 60 ["B"] ["A"]) →
      [a.1, b.1].Sublist (rrfOrder 60 ["B"] ["A"]) :=
  rrf_order_sorted_stable 60 ["B"] ["A"]

/-- C6 (counterexample): on the oracle reply
`searchMode = "banana", contentTypes = ["banana"], enhancedTerms = []` the
adapter returns mode `"banana"` — not one of the three allowed values — the
unknown content-type token is kept, and the present-but-empty terms list is
returned as `[]` instead of `[query]`. -/
theorem plan_adapter_validation_cex :
    Dict.getOr (analyze_search_query "cats"
      (OracleRaw.ok [("searchMode", JVal.s "banana"), ("contentTypes", JVal.l ["banana"]),
        ("enhancedTerms", JVal.l [])])) "searchMode" JVal.null = JVal.s "banana" ∧
    (JVal.s "banana" = JVal.s "text" ∨ JVal.s "banana" = JVal.s "semantic" ∨
      JVal.s "banana" = JVal.s "hybrid" → False) ∧
    Dict.getOr (analyze_search_query "cats"
      (OracleRaw.ok [("searchMode", JVal.s "banana"), ("contentTypes", JVal.l ["banana"]),
        ("enhancedTerms", JVal.l [])])) "contentTypes" JVal.null = JVal.l ["banana"] ∧
    Dict.getOr (analyze_search_query "cats"
      (OracleRaw.ok [("searchMode", JVal.s "banana"), ("contentTypes", JVal.l ["banana"]),
        ("enhancedTerms", JVal.l [])])) "enhancedTerms" JVal.null = JVal.l [] := by
  refine ⟨rfl, ?_, rfl, rfl⟩
  intro h
  rcases h with h | h | h <;> simp at h

/-- C6 (amended): on a decoded oracle reply every field is passed through
verbatim with a per-field default applied only when the key is missing —
`searchMode → "hybrid"`, `contentTypes → ["any"]`, `enhancedTerms →
[query]`; no mode validation and no discarding of unknown content-type
tokens takes place — and on an oracle exception the adapter returns the
fixed default analysis (`hybrid`, `[query]`). -/
theorem plan_adapter_defaults (q : String) (j : Dict) :
    Dict.getOr (analyze_search_query q (OracleRaw.ok j)) "searchMode" JVal.null =
      Dict.getOr j "searchMode" (JVal.s "hybrid") ∧
    Dict.getOr (analyze_search_query q (OracleRaw.ok j)) "contentTypes" JVal.null =
      Dict.getOr j "contentTypes" (JVal.l ["any"]) ∧
    Dict.getOr (analyze_search_query q (OracleRaw.ok j)) "enhancedTerms" JVal.null =
      Dict.getOr j "enhancedTerms" (JVal.l [q]) ∧
    Dict.getOr (analyze_search_query q OracleRaw.raise) "searchMode" JVal.null =
      JVal.s "hybrid" ∧
    Dict.getOr (analyze_search_query q OracleRaw.raise) "enhancedTerms" JVal.null =
      JVal.l [q] := by
  refine ⟨rfl, ?_, ?_, rfl, rfl⟩ <;> rfl

/-- C7 (counterexample): with the refinement oracle raising and the caller
having supplied content type "image", the second attempt's content-type
argument is "image", which yields a non-empty type filter — not the claimed
"no content-type filter". -/
theorem refine_fallback_filter_cex :
    (refinedArgs "dogs" (some "image") (refine_search_strategy "dogs" OracleRaw.raise)).ct
      = "image" ∧
    PyArg.toFilter (PyArg.pystr "image") = some ["i", "m", "a", "g", "e"] := by
  exact ⟨rfl, rfl⟩

/-- C7 (amended): whenever the refinement oracle call raises, the second
attempt uses mode Semantic, terms equal to the original query, threshold
`0.1` — so the semantic retrieval's effective cosine-distance cutoff is
`1 - 0.1 = 0.9` — and the content-type token `"any"` unless the caller
supplied a (non-empty, non-"any") content type, which is used instead. -/
theorem refine_fallback_plan (q : String) (uct : Option String) :
    (refinedArgs q uct (refine_search_strategy q OracleRaw.raise)).mode = "semantic" ∧
    (refinedArgs q uct (refine_search_strategy q OracleRaw.raise)).terms = q ∧
    (refinedArgs q uct (refine_search_strategy q OracleRaw.raise)).threshold = 1/10 ∧
    semCutoff (1/10) = 9/10 ∧
    (refinedArgs q uct (refine_search_strategy q OracleRaw.raise)).ct = ctChoose uct "any" := by
  refine ⟨rfl, rfl, rfl, by norm_num [semCutoff], rfl⟩

/-- C8 (counterexample): an empty query string is not rejected — the inbound
search operation runs the retrieval and returns the stored item (the empty
pattern matches its title), so no validation error is surfaced. -/
theorem empty_query_not_rejected_cex :
    search_items env3 db2 "" 0 10 true PyArg.pynone = [itemX] := by
  decide

/-- C8 (amended): an empty query is processed like any other: the empty
substring pattern matches exactly the items having a non-NULL title, a
non-NULL body, or at least one tag, and retrieval proceeds normally. -/
theorem empty_query_matches_nonnull (it : Item) :
    textMatch "" it = (it.title.isSome || it.raw_content.isSome || !it.tags.isEmpty) := by
  unfold textMatch containsCI
  cases it.title <;> cases it.raw_content <;> cases it.tags <;>
    simp [charsSub_nil, List.any_cons]

/-- C9: for every environment, store, query and positive limit, the
text-only, hybrid, pure-semantic and smart-search operations all return at
most `limit` results. -/
theorem search_result_length_le_limit (env : Env) (db : DB) (q : String)
    (skip limit : Nat) (th : ℚ) (uct : Option String) (cts : PyArg) (sem : Bool)
    (hl : 0 < limit) :
    (text_search_only q skip limit cts db).length ≤ limit ∧
    (search_items env db q skip limit sem cts).length ≤ limit ∧
    (∀ r, semantic_search_items env db q skip limit th cts = Except.ok r →
      r.length ≤ limit) ∧
    (iterative_smart_search env db q skip limit uct).1.length ≤ limit := by
  refine ⟨len_text _ _ _ _ _, len_search _ _ _ _ _ _ _,
    fun r h => len_semantic _ _ _ _ _ _ _ _ h, ?_⟩
  unfold iterative_smart_search
  cases hs : env.serviceFail
  · simp only [Bool.false_eq_true, if_false]
    cases hd1 : dispatch env db (firstArgs q uct (analyze_search_query q (env.planOracle q))) skip limit
    · simp [len_search]
    · simp only []
      cases ht1 : ((evaluate_search_results (env.judgeOracle 1)).getOr "satisfied" (JVal.b false)).truthy
      · simp only [Bool.false_eq_true, if_false]
        cases hd2 : dispatch env db (refinedArgs q uct (refine_search_strategy q env.refineOracle)) skip limit
        · simp [len_search]
        · simp only []
          cases ht2 : ((evaluate_search_results (env.judgeOracle 2)).getOr "satisfied" (JVal.b false)).truthy
          · simp [len_search]
          · simp only [if_true]
            exact len_dispatch _ _ _ _ _ _ hd2
      · simp only [if_true]
        exact len_dispatch _ _ _ _ _ _ hd1
  · simp [len_search]

/-- C9 (witness): the length bounds at a concrete store with limit 1. -/
theorem search_result_length_le_limit_inst :
    (text_search_only "dog" 0 1 PyArg.pynone db2).length ≤ 1 ∧
    (search_items env3 db2 "dog" 0 1 true PyArg.pynone).length ≤ 1 ∧
    (∀ r, semantic_search_items env3 db2 "dog" 0 1 (1/5) PyArg.pynone = Except.ok r →
      r.length ≤ 1) ∧
    (iterative_smart_search env3 db2 "dog" 0 1 Option.none).1.length ≤ 1 :=
  search_result_length_le_limit env3 db2 "dog" 0 1 (1/5) Option.none PyArg.pynone true
    (by decide)

/-- C10: if anything inside the hybrid branch of `search_items` raises — in
particular a failing embedding collaborator or a store error in the semantic
retrieval — the operation returns the lexical-only `text_search_only` result
for the same query, pagination and content-type filter instead of surfacing
an error. -/
theorem hybrid_error_falls_back_to_text (env : Env) (db : DB) (q : String)
    (skip limit : Nat) (cts : PyArg)
    (h : env.embed q = Except.error () ∨ env.storeFail = true ∨
      hybrid_core env db q skip limit cts = Except.error ()) :
    search_items env db q skip limit true cts = text_search_only q skip limit cts db := by
  have hh : hybrid_core env db q skip limit cts = Except.error () := by
    rcases h with h | h | h
    · simp [hybrid_core, semantic_search_only, h]
    · cases hq : env.embed q <;> simp [hybrid_core, semantic_search_only, hq, h]
    · exact h
  simp [search_items, hh]

/-- C10 (witness): the fallback identity with a failing embedding service. -/
theorem hybrid_error_falls_back_to_text_inst :
    search_items env2 db2 "dog" 0 10 true PyArg.pynone =
      text_search_only "dog" 0 10 PyArg.pynone db2 :=
  hybrid_error_falls_back_to_text env2 db2 "dog" 0 10 PyArg.pynone (Or.inl rfl)

end Synapse
